import Mathlib

/-!
Shallow embedding of the `@getmocha/users-service` SDK and its two React
auth-provider variants, used to settle the specification claims.

Source layout:
* `shared.ts` — the `MochaUser` record shape (modelled here by untyped JSON
  values, since the TypeScript runtime never validates the shape).
* backend module — `getOAuthRedirectUrl`, `exchangeCodeForSessionToken`,
  `getCurrentUser`, `deleteSession`, `authMiddleware`.
* two React `AuthProvider` variants: one with `fetchUser` / `isPending` /
  `isFetching` and a mount-time effect (namespace `ReactAuthA`), and one with
  `loadUser` and no mount-time effect (namespace `ReactAuthB`).

JavaScript asynchrony is modelled as a single-threaded event machine: each
exported operation has a synchronous prefix (everything up to its first
`await`), and the arrival of a network response runs the corresponding
continuation to completion, including the microtasks (`.then` callbacks,
`await`ers) that the settling promise releases.
-/

/-- JSON values as produced by `response.json()`, plus `jsUndefined` for the
JavaScript `undefined` that object destructuring yields on a missing field. -/
inductive Json where
  | null : Json
  | jsUndefined : Json
  | bool : Bool → Json
  | num : Int → Json
  | str : String → Json
  | arr : List Json → Json
  | obj : List (String × Json) → Json
deriving Repr

/-- Field lookup, as JavaScript object destructuring: a missing field gives
`undefined`. -/
def Json.getField : Json → String → Json
  | .obj fields, k =>
      match fields.find? (fun kv => kv.1 = k) with
      | some kv => kv.2
      | none => .jsUndefined
  | _, _ => .jsUndefined

/-- JavaScript falsiness, as used by `if (!user)`: `null`, `undefined`,
`false`, `0` and `""` are falsy; every object and array is truthy. -/
def Json.falsy : Json → Bool
  | .null => true
  | .jsUndefined => true
  | .bool b => !b
  | .num n => n = 0
  | .str s => s = ""
  | .arr _ => false
  | .obj _ => false

/-- An outbound HTTP request as handed to `fetch`. -/
structure HttpRequest where
  method : String
  url : String
  headers : List (String × String)
  body : Option Json
deriving Repr

/-- The outcome of one `fetch` call: either the promise rejects with a
transport error, or a response arrives carrying `ok`, `status`, `statusText`
and the result of `response.json()` (which itself can throw on a malformed
body, hence the `Except`). -/
inductive FetchOutcome where
  | networkError : String → FetchOutcome
  | response : Bool → Nat → String → Except String Json → FetchOutcome

/-- Configuration record `MochaUsersServiceOptions` (`apiUrl?: string`,
`apiKey: string`). -/
structure MochaUsersServiceOptions where
  apiUrl : Option String
  apiKey : String

def DEFAULT_MOCHA_USERS_SERVICE_API_URL : String := "https://getmocha.com/u"

def MOCHA_SESSION_TOKEN_COOKIE_NAME : String := "mocha_session_token"

def SUPPORTED_OAUTH_PROVIDERS : List String := ["google"]

/-- The expression `options.apiUrl || DEFAULT_MOCHA_USERS_SERVICE_API_URL`:
JavaScript `||` also replaces an empty string by the default. -/
def resolveApiUrl (options : MochaUsersServiceOptions) : String :=
  match options.apiUrl with
  | some u => if u = "" then DEFAULT_MOCHA_USERS_SERVICE_API_URL else u
  | none => DEFAULT_MOCHA_USERS_SERVICE_API_URL

namespace Backend

/-- The request issued by `getOAuthRedirectUrl`. -/
def redirectUrlRequest (provider : String) (options : MochaUsersServiceOptions) :
    HttpRequest :=
  { method := "GET"
    url := resolveApiUrl options ++ "/oauth/" ++ provider ++ "/redirect_url"
    headers := [("Content-Type", "application/json"), ("x-api-key", options.apiKey)]
    body := none }

/-- `getOAuthRedirectUrl(provider, options)`: throws on an unsupported
provider before any network call; otherwise issues the GET, throws on a
rejected fetch or a non-ok status, and returns the `redirect_url` field of
the JSON body. The first component records the requests actually issued. -/
def getOAuthRedirectUrl (provider : String) (options : MochaUsersServiceOptions)
    (outcome : FetchOutcome) : List HttpRequest × Except String Json :=
  if !(SUPPORTED_OAUTH_PROVIDERS.contains provider) then
    ([], .error ("Unsupported OAuth provider: " ++ provider))
  else
    let req := redirectUrlRequest provider options
    match outcome with
    | .networkError e => ([req], .error e)
    | .response ok _ statusText jsonResult =>
        if !ok then
          ([req], .error ("Failed to get redirect URL for provider " ++ provider
            ++ ": " ++ statusText))
        else
          match jsonResult with
          | .error e => ([req], .error e)
          | .ok j => ([req], .ok (j.getField "redirect_url"))

/-- The request issued by the backend `exchangeCodeForSessionToken`. -/
def sessionsPostRequest (code : String) (options : MochaUsersServiceOptions) :
    HttpRequest :=
  { method := "POST"
    url := resolveApiUrl options ++ "/sessions"
    headers := [("Content-Type", "application/json"), ("x-api-key", options.apiKey)]
    body := some (.obj [("code", .str code)]) }

/-- Backend `exchangeCodeForSessionToken(code, options)`: POSTs the code,
throws on rejection or non-ok, returns the `session_token` field. -/
def exchangeCodeForSessionToken (code : String) (options : MochaUsersServiceOptions)
    (outcome : FetchOutcome) : List HttpRequest × Except String Json :=
  let req := sessionsPostRequest code options
  match outcome with
  | .networkError e => ([req], .error e)
  | .response ok _ statusText jsonResult =>
      if !ok then
        ([req], .error ("Failed to exchange code for session token: " ++ statusText))
      else
        match jsonResult with
        | .error e => ([req], .error e)
        | .ok j => ([req], .ok (j.getField "session_token"))

/-- The request issued by `getCurrentUser`. -/
def usersMeRequest (sessionToken : String) (options : MochaUsersServiceOptions) :
    HttpRequest :=
  { method := "GET"
    url := resolveApiUrl options ++ "/users/me"
    headers := [("Authorization", "Bearer " ++ sessionToken),
                ("x-api-key", options.apiKey)]
    body := none }

/-- `getCurrentUser(sessionToken, options)`: the whole body is wrapped in
`try`/`catch`, so a rejected fetch or a throwing `response.json()` is caught
and yields `null`; a non-ok response yields `null`; on success the `data`
field of the body is returned unchanged. `Json.null` models the returned
JavaScript `null`. -/
def getCurrentUser (sessionToken : String) (options : MochaUsersServiceOptions)
    (outcome : FetchOutcome) : List HttpRequest × Except String Json :=
  let req := usersMeRequest sessionToken options
  match outcome with
  | .networkError _ => ([req], .ok .null)
  | .response ok _ _ jsonResult =>
      if !ok then
        ([req], .ok .null)
      else
        match jsonResult with
        | .error _ => ([req], .ok .null)
        | .ok j => ([req], .ok (j.getField "data"))

/-- The request issued by `deleteSession`. -/
def sessionsDeleteRequest (sessionToken : String) (options : MochaUsersServiceOptions) :
    HttpRequest :=
  { method := "DELETE"
    url := resolveApiUrl options ++ "/sessions"
    headers := [("Authorization", "Bearer " ++ sessionToken),
                ("x-api-key", options.apiKey)]
    body := none }

/-- `deleteSession(sessionToken, options)`: fires the DELETE inside
`try`/`catch` and ignores the outcome entirely. -/
def deleteSession (sessionToken : String) (options : MochaUsersServiceOptions)
    (_outcome : FetchOutcome) : List HttpRequest × Except String Unit :=
  ([sessionsDeleteRequest sessionToken options], .ok ())

/-- Worker environment bindings read by the middleware. -/
structure MiddlewareEnv where
  apiUrl : Option String
  apiKey : String

/-- Result of running `authMiddleware` on one request. -/
inductive MwOutcome where
  | unauthorizedJson : Nat → Json → MwOutcome
  | httpException : Nat → String → MwOutcome
  | nextWith : Json → MwOutcome
  | raised : String → MwOutcome
deriving Repr

/-- `authMiddleware`: reads the session cookie (`getCookie` yields
`string | undefined`, so `Option String`); with no cookie it immediately
returns a 401 JSON body without any remote call; otherwise it calls
`getCurrentUser` and either throws `HTTPException(401)` on a falsy user or
stores the user in the context and runs `next()`. -/
def authMiddleware (cookie : Option String) (env : MiddlewareEnv)
    (outcome : FetchOutcome) : List HttpRequest × MwOutcome :=
  match cookie with
  | none => ([], .unauthorizedJson 401 (.obj [("error", .str "Unauthorized")]))
  | some sessionToken =>
      let options : MochaUsersServiceOptions :=
        { apiUrl := env.apiUrl, apiKey := env.apiKey }
      let r := getCurrentUser sessionToken options outcome
      match r.2 with
      | .error e => (r.1, .raised e)
      | .ok user =>
          if user.falsy then
            (r.1, .httpException 401 "Invalid session token")
          else
            (r.1, .nextWith user)

end Backend

/-- Progress of the single `exchangeCodeForSessionToken` operation of an
auth provider: no call yet, awaiting the POST response, awaiting the inner
user-fetch promise triggered after a successful exchange, or settled. -/
inductive ExchWait where
  | idle : ExchWait
  | net : ExchWait
  | fetch : Nat → ExchWait
  | settled : ExchWait
deriving Repr, DecidableEq

namespace ReactAuthA

/-- State of the `AuthProvider` variant that exposes `fetchUser`,
`isPending` and `isFetching`.

`userRef` / `exchangeRef` are the two deduplication refs, holding the
identifier of the promise stored in them (`none` = the ref is `null`).
`pendingMountOn` records the promise on which the mount effect registered
its two `.then` callbacks that clear `isPending`. The request counters log
the outbound calls per endpoint; `searchReads` counts the constructions of
`URLSearchParams(window.location.search)`; `code` is the page URL's `code`
query parameter for the whole page lifetime; `nextId` supplies fresh
promise identifiers. -/
structure St where
  user : Json
  isPending : Bool
  isFetching : Bool
  userRef : Option Nat
  exchangeRef : Option Nat
  exchangeWait : ExchWait
  pendingMountOn : Option Nat
  nextId : Nat
  userReqs : Nat
  exchangeReqs : Nat
  logoutReqs : Nat
  logoutInFlight : Nat
  code : Option String
  searchReads : Nat

/-- Provider state right after `useState` initialisation, for the page's
given `code` query parameter. -/
def init (code : Option String) : St :=
  { user := .null, isPending := true, isFetching := false, userRef := none
    exchangeRef := none, exchangeWait := .idle, pendingMountOn := none
    nextId := 0, userReqs := 0, exchangeReqs := 0, logoutReqs := 0
    logoutInFlight := 0, code := code, searchReads := 0 }

/-- Synchronous prefix of `fetchUser()`: if `userRef.current` is non-null the
stored promise is returned and nothing else happens; otherwise a fresh
promise is created and stored, `isFetching` is set, and the GET to
`/api/users/me` is issued before the first suspension point. Returns the
promise handed back to the caller. -/
def fetchUser (s : St) : St × Nat :=
  match s.userRef with
  | some p => (s, p)
  | none =>
      let p := s.nextId
      ({ s with userRef := some p, nextId := s.nextId + 1, isFetching := true
                userReqs := s.userReqs + 1 }, p)

/-- Settlement bookkeeping of the fetch-user promise `p`: the `finally`
clears `isFetching` and `userRef`; the settling promise then runs the mount
effect's `.then` callback (clearing `isPending`) if it was registered on
`p`, and releases an exchange operation awaiting `p`. -/
def settleUserPromise (p : Nat) (s : St) : St :=
  let s₂ := { s with isFetching := false, userRef := none }
  let s₃ :=
    if s₂.pendingMountOn = some p then
      { s₂ with isPending := false, pendingMountOn := none }
    else s₂
  match s₃.exchangeWait with
  | .fetch q => if q = p then { s₃ with exchangeWait := .settled } else s₃
  | _ => s₃

/-- The `try` block of the fetch-user continuation: an ok response with a
parsable body stores it via `setUser`; a non-ok status throws, a rejected
fetch or a throwing `response.json()` propagates, and the `catch` rethrows,
so in every non-success case the user state is left untouched. -/
def applyUserBody (o : FetchOutcome) (s : St) : St :=
  match o with
  | .networkError _ => s
  | .response ok _ _ jsonResult =>
      if ok then
        match jsonResult with
        | .ok j => { s with user := j }
        | .error _ => s
      else s

/-- Arrival of the `/api/users/me` response (a no-op when no fetch-user
operation is awaiting the network). The continuation stores the parsed body
on a 2xx response and otherwise throws (rethrown by the `catch`); then the
`finally` runs and the promise settles, resolved on success and rejected on
a non-ok status, a transport error or a malformed body. -/
def userResponse (o : FetchOutcome) (s : St) : St :=
  match s.userRef with
  | none => s
  | some p => settleUserPromise p (applyUserBody o s)

/-- Synchronous prefix of `logout()`: `setUser(null)` and the GET to
`/api/logout` both run before the first suspension point. -/
def logout (s : St) : St :=
  { s with user := .null, logoutReqs := s.logoutReqs + 1
           logoutInFlight := s.logoutInFlight + 1 }

/-- Body of `logout()` from its only `await` on: the `catch` swallows a
rejected fetch after logging, and a response is not inspected at all, so the
promise resolves either way. -/
def logoutResult : FetchOutcome → Except String Unit
  | .networkError _ => .ok ()
  | .response _ _ _ _ => .ok ()

/-- Arrival of the `/api/logout` response (a no-op when no logout call is
awaiting the network). Nothing after the `await` touches the user state. -/
def logoutResponse (_o : FetchOutcome) (s : St) : St :=
  match s.logoutInFlight with
  | 0 => s
  | n + 1 => { s with logoutInFlight := n }

/-- Synchronous body of `exchangeCodeForSessionToken()`: the function is not
`async`, so everything here happens before it returns. A stored promise in
`exchangeRef.current` is returned at once — before the URL is even read.
Otherwise the query string is read; a missing or empty `code` throws
synchronously (`.error`); otherwise a fresh promise is created, stored, and
the POST to `/api/sessions` is issued. -/
def exchangeCodeForSessionToken (s : St) : St × Except String Nat :=
  match s.exchangeRef with
  | some p => (s, .ok p)
  | none =>
      let s₁ := { s with searchReads := s.searchReads + 1 }
      match s₁.code with
      | none =>
          (s₁, .error "Cannot exchange code for session token: no code provided in the URL search params.")
      | some c =>
          if c = "" then
            (s₁, .error "Cannot exchange code for session token: no code provided in the URL search params.")
          else
            let p := s₁.nextId
            ({ s₁ with exchangeRef := some p, nextId := s₁.nextId + 1
                       exchangeWait := .net, exchangeReqs := s₁.exchangeReqs + 1 },
             .ok p)

/-- Arrival of the `/api/sessions` response (a no-op unless an exchange is
awaiting the network). A rejected fetch or a non-ok status is thrown, caught
by the `catch` after logging, and the promise resolves; on success the
continuation calls `fetchUser()` and awaits the returned promise. -/
def exchangeResponse (o : FetchOutcome) (s : St) : St :=
  match s.exchangeWait with
  | .net =>
      (match o with
       | .networkError _ => { s with exchangeWait := .settled }
       | .response ok _ _ _ =>
           if ok then
             let r := fetchUser s
             { r.1 with exchangeWait := .fetch r.2 }
           else { s with exchangeWait := .settled })
  | _ => s

/-- The mount effect (`useEffect` with empty dependency list): one call to
`fetchUser()`, with `.then` callbacks on the returned promise that set
`isPending` to false whether it resolves or rejects. -/
def mount (s : St) : St :=
  let r := fetchUser s
  { r.1 with pendingMountOn := some r.2 }

/-- External events driving one provider instance: the exported actions
being invoked, the mount effect, and network responses being delivered. -/
inductive Ev where
  | mount : Ev
  | callFetchUser : Ev
  | callLogout : Ev
  | callExchange : Ev
  | userResponse : FetchOutcome → Ev
  | exchangeResponse : FetchOutcome → Ev
  | logoutResponse : FetchOutcome → Ev

/-- One step of the provider machine. -/
def step (s : St) : Ev → St
  | .mount => mount s
  | .callFetchUser => (fetchUser s).1
  | .callLogout => logout s
  | .callExchange => (exchangeCodeForSessionToken s).1
  | .userResponse o => userResponse o s
  | .exchangeResponse o => exchangeResponse o s
  | .logoutResponse o => logoutResponse o s

/-- Run the machine from the initial state over a list of events. -/
def run (code : Option String) (es : List Ev) : St :=
  es.foldl step (init code)

end ReactAuthA

namespace ReactAuthB

/-- State of the `AuthProvider` variant that exposes `loadUser` and has no
loading flags and no mount-time effect. `loadSettled` records whether the
promise stored in `userRef` (which this variant never clears) has settled,
so that a later `await` of it completes without any network activity. -/
structure St where
  user : Json
  userRef : Option Nat
  loadSettled : Bool
  exchangeRef : Option Nat
  exchangeWait : ExchWait
  nextId : Nat
  userReqs : Nat
  exchangeReqs : Nat
  logoutReqs : Nat
  logoutInFlight : Nat
  code : Option String
  searchReads : Nat

/-- Provider state right after `useState` initialisation. -/
def init (code : Option String) : St :=
  { user := .null, userRef := none, loadSettled := false, exchangeRef := none
    exchangeWait := .idle, nextId := 0, userReqs := 0, exchangeReqs := 0
    logoutReqs := 0, logoutInFlight := 0, code := code, searchReads := 0 }

/-- Synchronous prefix of `loadUser()`: a stored promise is returned as-is —
whether it is still pending or long settled, since nothing in this variant
ever resets `userRef.current` to null; otherwise a fresh promise is created
and stored and the GET to `/api/users/me` is issued. -/
def loadUser (s : St) : St × Nat :=
  match s.userRef with
  | some p => (s, p)
  | none =>
      let p := s.nextId
      ({ s with userRef := some p, loadSettled := false, nextId := s.nextId + 1
                userReqs := s.userReqs + 1 }, p)

/-- Settlement bookkeeping of the load promise `p`: it is marked settled —
`userRef` is deliberately left in place, nothing in this variant clears it —
and an exchange operation awaiting `p` is released. -/
def settleLoadPromise (p : Nat) (s : St) : St :=
  let s₂ := { s with loadSettled := true }
  match s₂.exchangeWait with
  | .fetch q => if q = p then { s₂ with exchangeWait := .settled } else s₂
  | _ => s₂

/-- Body of the load continuation: an ok response with a parsable body is
stored via `setUser`; a non-ok status stores `null`; a rejected fetch or a
throwing `response.json()` is caught and stores `null`. -/
def applyLoadBody (o : FetchOutcome) (s : St) : St :=
  match o with
  | .networkError _ => { s with user := .null }
  | .response ok _ _ jsonResult =>
      if ok then
        match jsonResult with
        | .ok j => { s with user := j }
        | .error _ => { s with user := .null }
      else { s with user := .null }

/-- Arrival of the `/api/users/me` response (a no-op unless a load is
awaiting the network). The promise always resolves — every failure is
caught — and `userRef` stays in place. -/
def userResponse (o : FetchOutcome) (s : St) : St :=
  match s.userRef with
  | none => s
  | some p =>
      if s.loadSettled then s
      else settleLoadPromise p (applyLoadBody o s)

/-- Synchronous prefix of `logout()` (identical to the other variant). -/
def logout (s : St) : St :=
  { s with user := .null, logoutReqs := s.logoutReqs + 1
           logoutInFlight := s.logoutInFlight + 1 }

/-- Body of `logout()` from its only `await` on — identical to the other
variant: the `catch` swallows a rejected fetch after logging, a response is
not inspected, so the promise resolves either way. -/
def logoutResult : FetchOutcome → Except String Unit
  | .networkError _ => .ok ()
  | .response _ _ _ _ => .ok ()

/-- Arrival of the `/api/logout` response; nothing after the `await` touches
the user state, and the `catch` swallows a rejection. -/
def logoutResponse (_o : FetchOutcome) (s : St) : St :=
  match s.logoutInFlight with
  | 0 => s
  | n + 1 => { s with logoutInFlight := n }

/-- Synchronous body of `exchangeCodeForSessionToken()` — textually the same
as in the other variant: stored promise returned first, then the URL is
read, a missing/empty `code` throws synchronously, otherwise the POST is
issued and a fresh promise stored. -/
def exchangeCodeForSessionToken (s : St) : St × Except String Nat :=
  match s.exchangeRef with
  | some p => (s, .ok p)
  | none =>
      let s₁ := { s with searchReads := s.searchReads + 1 }
      match s₁.code with
      | none =>
          (s₁, .error "Cannot exchange code for session token: no code provided in the URL search params.")
      | some c =>
          if c = "" then
            (s₁, .error "Cannot exchange code for session token: no code provided in the URL search params.")
          else
            let p := s₁.nextId
            ({ s₁ with exchangeRef := some p, nextId := s₁.nextId + 1
                       exchangeWait := .net, exchangeReqs := s₁.exchangeReqs + 1 },
             .ok p)

/-- Arrival of the `/api/sessions` response. On success the continuation
calls `loadUser()` and awaits the returned promise; when that promise is the
already-settled one stored in `userRef`, the `await` completes immediately
and no fresh `/api/users/me` request is made. -/
def exchangeResponse (o : FetchOutcome) (s : St) : St :=
  match s.exchangeWait with
  | .net =>
      (match o with
       | .networkError _ => { s with exchangeWait := .settled }
       | .response ok _ _ _ =>
           if ok then
             let r := loadUser s
             if r.1.loadSettled then
               { r.1 with exchangeWait := .settled }
             else
               { r.1 with exchangeWait := .fetch r.2 }
           else { s with exchangeWait := .settled })
  | _ => s

/-- Mounting this variant's `AuthProvider` runs no effect at all: the
component body contains no `useEffect`, and its documentation states that
the application must call `loadUser` explicitly. -/
def mount (s : St) : St := s

/-- External events driving one provider instance. -/
inductive Ev where
  | mount : Ev
  | callLoadUser : Ev
  | callLogout : Ev
  | callExchange : Ev
  | userResponse : FetchOutcome → Ev
  | exchangeResponse : FetchOutcome → Ev
  | logoutResponse : FetchOutcome → Ev

/-- One step of the provider machine. -/
def step (s : St) : Ev → St
  | .mount => mount s
  | .callLoadUser => (loadUser s).1
  | .callLogout => logout s
  | .callExchange => (exchangeCodeForSessionToken s).1
  | .userResponse o => userResponse o s
  | .exchangeResponse o => exchangeResponse o s
  | .logoutResponse o => logoutResponse o s

/-- Run the machine from the initial state over a list of events. -/
def run (code : Option String) (es : List Ev) : St :=
  es.foldl step (init code)

end ReactAuthB

/-! ### Concrete sample values used by witnesses and counterexamples -/

/-- A sample parsed user record body. -/
def sampleUser : Json :=
  .obj [("id", .str "u1"), ("email", .str "u1@example.com")]

/-- A successful `/api/users/me` response carrying `sampleUser`. -/
def okUserOutcome : FetchOutcome :=
  .response true 200 "OK" (.ok sampleUser)

/-- An unauthorized response. -/
def unauthorizedOutcome : FetchOutcome :=
  .response false 401 "Unauthorized" (.ok .null)

/-! ### Backend lemmas -/

namespace Backend

/-- `getCurrentUser` issues exactly its one GET whatever the outcome. -/
theorem getCurrentUser_requests (tok : String) (opts : MochaUsersServiceOptions)
    (o : FetchOutcome) :
    (getCurrentUser tok opts o).1 = [usersMeRequest tok opts] := by
  rcases o with e | ⟨ok, st, stx, jr⟩
  · rfl
  · rcases ok with _ | _
    · rfl
    · rcases jr with e | j <;> rfl

end Backend

/-- C3: `getCurrentUser` (resolve_session) never raises — every outcome
produces a returned value; a transport failure or any non-success response
returns `null` (absent); and a success response whose body parsed returns
the body's `data` field unchanged. -/
theorem C3_getCurrentUser_total_and_round_trip
    (tok : String) (opts : MochaUsersServiceOptions) (o : FetchOutcome) :
    (∃ v, (Backend.getCurrentUser tok opts o).2 = .ok v) ∧
    (∀ e, o = .networkError e → (Backend.getCurrentUser tok opts o).2 = .ok .null) ∧
    (∀ st stx jr, o = .response false st stx jr →
        (Backend.getCurrentUser tok opts o).2 = .ok .null) ∧
    (∀ st stx j, o = .response true st stx (.ok j) →
        (Backend.getCurrentUser tok opts o).2 = .ok (j.getField "data")) := by
  refine ⟨?_, ?_, ?_, ?_⟩
  · rcases o with e | ⟨ok, st, stx, jr⟩
    · exact ⟨.null, rfl⟩
    · rcases ok with _ | _
      · exact ⟨.null, rfl⟩
      · rcases jr with e | j
        · exact ⟨.null, rfl⟩
        · exact ⟨j.getField "data", rfl⟩
  · rintro e rfl; rfl
  · rintro st stx jr rfl; rcases jr with e | j <;> rfl
  · rintro st stx j rfl; rfl

/-- Witness for C3 at concrete inputs: a success body `{data: "alice"}`
round-trips, and a 401 gives `null`. -/
theorem C3_witness :
    (Backend.getCurrentUser "tok" ⟨none, "key"⟩
        (.response true 200 "OK" (.ok (.obj [("data", .str "alice")])))).2
      = .ok (.str "alice") ∧
    (Backend.getCurrentUser "tok" ⟨none, "key"⟩ unauthorizedOutcome).2 = .ok .null := by
  constructor
  · exact (C3_getCurrentUser_total_and_round_trip "tok" ⟨none, "key"⟩
      (.response true 200 "OK" (.ok (.obj [("data", .str "alice")])))).2.2.2 200 "OK"
      (.obj [("data", .str "alice")]) rfl
  · exact (C3_getCurrentUser_total_and_round_trip "tok" ⟨none, "key"⟩
      unauthorizedOutcome).2.2.1 401 "Unauthorized" (.ok .null) rfl

/-- C4: the middleware is a three-way gate — no cookie gives an immediate
401 JSON body with no remote call; a cookie whose resolution returns `null`
raises `HTTPException(401)`; a cookie resolving to a user record (an object
body, which is truthy) stores it in the context and runs `next()`. -/
theorem C4_authMiddleware_gate
    (env : Backend.MiddlewareEnv) (o : FetchOutcome) :
    (Backend.authMiddleware none env o =
        ([], .unauthorizedJson 401 (.obj [("error", .str "Unauthorized")]))) ∧
    (∀ tok, (Backend.getCurrentUser tok ⟨env.apiUrl, env.apiKey⟩ o).2 = .ok .null →
        Backend.authMiddleware (some tok) env o =
          ([Backend.usersMeRequest tok ⟨env.apiUrl, env.apiKey⟩],
           .httpException 401 "Invalid session token")) ∧
    (∀ tok fields,
        (Backend.getCurrentUser tok ⟨env.apiUrl, env.apiKey⟩ o).2 = .ok (.obj fields) →
        Backend.authMiddleware (some tok) env o =
          ([Backend.usersMeRequest tok ⟨env.apiUrl, env.apiKey⟩],
           .nextWith (.obj fields))) := by
  refine ⟨rfl, ?_, ?_⟩
  · intro tok h
    simp only [Backend.authMiddleware]
    rw [h]
    simp [Backend.getCurrentUser_requests, Json.falsy]
  · intro tok fields h
    simp only [Backend.authMiddleware]
    rw [h]
    simp [Backend.getCurrentUser_requests, Json.falsy]

/-- Witness for C4 at concrete inputs: each of the three gate branches taken
at an explicit cookie/outcome pair. -/
theorem C4_witness :
    (Backend.authMiddleware none ⟨none, "key"⟩ okUserOutcome =
        ([], .unauthorizedJson 401 (.obj [("error", .str "Unauthorized")]))) ∧
    (Backend.authMiddleware (some "badtok") ⟨none, "key"⟩ unauthorizedOutcome =
        ([Backend.usersMeRequest "badtok" ⟨none, "key"⟩],
         .httpException 401 "Invalid session token")) ∧
    (Backend.authMiddleware (some "goodtok") ⟨none, "key"⟩
        (.response true 200 "OK" (.ok (.obj [("data", sampleUser)]))) =
        ([Backend.usersMeRequest "goodtok" ⟨none, "key"⟩],
         .nextWith sampleUser)) := by
  refine ⟨(C4_authMiddleware_gate ⟨none, "key"⟩ okUserOutcome).1, ?_, ?_⟩
  · exact (C4_authMiddleware_gate ⟨none, "key"⟩ unauthorizedOutcome).2.1 "badtok" rfl
  · exact (C4_authMiddleware_gate ⟨none, "key"⟩
      (.response true 200 "OK" (.ok (.obj [("data", sampleUser)])))).2.2 "goodtok"
      [("id", .str "u1"), ("email", .str "u1@example.com")] rfl

/-- C8: `getOAuthRedirectUrl` with an unsupported provider fails before any
network call (empty request log); with a supported provider it issues
exactly one GET to `{base}/oauth/{provider}/redirect_url` carrying the API
key header, fails on any non-success status, and on success returns the
`redirect_url` field of the body. -/
theorem C8_getOAuthRedirectUrl_contract
    (opts : MochaUsersServiceOptions) (o : FetchOutcome) :
    (∀ p, SUPPORTED_OAUTH_PROVIDERS.contains p = false →
        Backend.getOAuthRedirectUrl p opts o =
          ([], .error ("Unsupported OAuth provider: " ++ p))) ∧
    (∀ p, SUPPORTED_OAUTH_PROVIDERS.contains p = true →
        (Backend.getOAuthRedirectUrl p opts o).1 = [Backend.redirectUrlRequest p opts] ∧
        (Backend.redirectUrlRequest p opts).method = "GET" ∧
        (Backend.redirectUrlRequest p opts).url
          = resolveApiUrl opts ++ "/oauth/" ++ p ++ "/redirect_url" ∧
        ("x-api-key", opts.apiKey) ∈ (Backend.redirectUrlRequest p opts).headers ∧
        (∀ st stx jr, o = .response false st stx jr →
            ∃ e, (Backend.getOAuthRedirectUrl p opts o).2 = .error e) ∧
        (∀ st stx j, o = .response true st stx (.ok j) →
            (Backend.getOAuthRedirectUrl p opts o).2 = .ok (j.getField "redirect_url"))) := by
  constructor
  · intro p hp
    unfold Backend.getOAuthRedirectUrl
    rw [hp]
    rfl
  · intro p hp
    refine ⟨?_, rfl, rfl, by simp [Backend.redirectUrlRequest], ?_, ?_⟩
    · unfold Backend.getOAuthRedirectUrl
      rw [hp]
      rcases o with e | ⟨ok, st, stx, jr⟩
      · rfl
      · rcases ok with _ | _
        · rfl
        · rcases jr with e | j <;> rfl
    · rintro st stx jr rfl
      unfold Backend.getOAuthRedirectUrl
      rw [hp]
      rcases jr with e | j
      · exact ⟨_, rfl⟩
      · exact ⟨_, rfl⟩
    · rintro st stx j rfl
      unfold Backend.getOAuthRedirectUrl
      rw [hp]
      rfl

/-- Witness for C8 at concrete inputs: `"github"` is rejected with no
request issued; `"google"` issues the GET and round-trips the
`redirect_url` field. -/
theorem C8_witness :
    (Backend.getOAuthRedirectUrl "github" ⟨none, "key"⟩ okUserOutcome =
        ([], .error "Unsupported OAuth provider: github")) ∧
    ((Backend.getOAuthRedirectUrl "google" ⟨none, "key"⟩
        (.response true 200 "OK"
          (.ok (.obj [("redirect_url", .str "https://accounts.google.com/x")])))).2
      = .ok (.str "https://accounts.google.com/x")) := by
  constructor
  · exact (C8_getOAuthRedirectUrl_contract ⟨none, "key"⟩ okUserOutcome).1 "github" rfl
  · exact (C8_getOAuthRedirectUrl_contract ⟨none, "key"⟩
      (.response true 200 "OK"
        (.ok (.obj [("redirect_url", .str "https://accounts.google.com/x")])))).2 "google"
      rfl |>.2.2.2.2.2 200 "OK" (.obj [("redirect_url", .str "https://accounts.google.com/x")]) rfl

/-! ### Client Session Coordinator lemmas — variant A (`fetchUser`) -/

theorem settleUserA_exchangeRef (p : Nat) (s : ReactAuthA.St) :
    (ReactAuthA.settleUserPromise p s).exchangeRef = s.exchangeRef := by
  unfold ReactAuthA.settleUserPromise
  by_cases hp : s.pendingMountOn = some p <;>
    rcases hw : s.exchangeWait with _ | _ | q | _ <;>
      simp [hp, hw] <;> by_cases hq : q = p <;> simp [hq]

theorem settleUserA_exchangeReqs (p : Nat) (s : ReactAuthA.St) :
    (ReactAuthA.settleUserPromise p s).exchangeReqs = s.exchangeReqs := by
  unfold ReactAuthA.settleUserPromise
  by_cases hp : s.pendingMountOn = some p <;>
    rcases hw : s.exchangeWait with _ | _ | q | _ <;>
      simp [hp, hw] <;> by_cases hq : q = p <;> simp [hq]

theorem settleUserA_user (p : Nat) (s : ReactAuthA.St) :
    (ReactAuthA.settleUserPromise p s).user = s.user := by
  unfold ReactAuthA.settleUserPromise
  by_cases hp : s.pendingMountOn = some p <;>
    rcases hw : s.exchangeWait with _ | _ | q | _ <;>
      simp [hp, hw] <;> by_cases hq : q = p <;> simp [hq]

theorem settleUserA_userRef (p : Nat) (s : ReactAuthA.St) :
    (ReactAuthA.settleUserPromise p s).userRef = none := by
  unfold ReactAuthA.settleUserPromise
  by_cases hp : s.pendingMountOn = some p <;>
    rcases hw : s.exchangeWait with _ | _ | q | _ <;>
      simp [hp, hw] <;> by_cases hq : q = p <;> simp [hq]

theorem applyUserA_exchangeRef (o : FetchOutcome) (s : ReactAuthA.St) :
    (ReactAuthA.applyUserBody o s).exchangeRef = s.exchangeRef := by
  unfold ReactAuthA.applyUserBody
  rcases o with e | ⟨ok, st, stx, jr⟩
  · rfl
  · rcases ok with _ | _
    · rfl
    · rcases jr with e | j <;> rfl

theorem applyUserA_exchangeReqs (o : FetchOutcome) (s : ReactAuthA.St) :
    (ReactAuthA.applyUserBody o s).exchangeReqs = s.exchangeReqs := by
  unfold ReactAuthA.applyUserBody
  rcases o with e | ⟨ok, st, stx, jr⟩
  · rfl
  · rcases ok with _ | _
    · rfl
    · rcases jr with e | j <;> rfl

theorem applyUserA_isPending (o : FetchOutcome) (s : ReactAuthA.St) :
    (ReactAuthA.applyUserBody o s).isPending = s.isPending := by
  unfold ReactAuthA.applyUserBody
  rcases o with e | ⟨ok, st, stx, jr⟩
  · rfl
  · rcases ok with _ | _
    · rfl
    · rcases jr with e | j <;> rfl

theorem applyUserA_pendingMountOn (o : FetchOutcome) (s : ReactAuthA.St) :
    (ReactAuthA.applyUserBody o s).pendingMountOn = s.pendingMountOn := by
  unfold ReactAuthA.applyUserBody
  rcases o with e | ⟨ok, st, stx, jr⟩
  · rfl
  · rcases ok with _ | _
    · rfl
    · rcases jr with e | j <;> rfl

theorem fetchUserA_exchangeRef (s : ReactAuthA.St) :
    (ReactAuthA.fetchUser s).1.exchangeRef = s.exchangeRef := by
  unfold ReactAuthA.fetchUser
  rcases h : s.userRef with _ | p <;> rfl

theorem fetchUserA_exchangeReqs (s : ReactAuthA.St) :
    (ReactAuthA.fetchUser s).1.exchangeReqs = s.exchangeReqs := by
  unfold ReactAuthA.fetchUser
  rcases h : s.userRef with _ | p <;> rfl

theorem fetchUserA_isPending (s : ReactAuthA.St) :
    (ReactAuthA.fetchUser s).1.isPending = s.isPending := by
  unfold ReactAuthA.fetchUser
  rcases h : s.userRef with _ | p <;> rfl

theorem userResponseA_exchangeRef (o : FetchOutcome) (s : ReactAuthA.St) :
    (ReactAuthA.userResponse o s).exchangeRef = s.exchangeRef := by
  unfold ReactAuthA.userResponse
  rcases h : s.userRef with _ | p
  · rfl
  · rw [settleUserA_exchangeRef, applyUserA_exchangeRef]

theorem userResponseA_exchangeReqs (o : FetchOutcome) (s : ReactAuthA.St) :
    (ReactAuthA.userResponse o s).exchangeReqs = s.exchangeReqs := by
  unfold ReactAuthA.userResponse
  rcases h : s.userRef with _ | p
  · rfl
  · rw [settleUserA_exchangeReqs, applyUserA_exchangeReqs]

theorem exchangeResponseA_exchangeRef (o : FetchOutcome) (s : ReactAuthA.St) :
    (ReactAuthA.exchangeResponse o s).exchangeRef = s.exchangeRef := by
  unfold ReactAuthA.exchangeResponse
  rcases h : s.exchangeWait with _ | _ | q | _ <;>
    first
    | rfl
    | · rcases o with e | ⟨ok, st, stx, jr⟩
        · rfl
        · rcases ok with _ | _
          · rfl
          · exact fetchUserA_exchangeRef s

theorem exchangeResponseA_exchangeReqs (o : FetchOutcome) (s : ReactAuthA.St) :
    (ReactAuthA.exchangeResponse o s).exchangeReqs = s.exchangeReqs := by
  unfold ReactAuthA.exchangeResponse
  rcases h : s.exchangeWait with _ | _ | q | _ <;>
    first
    | rfl
    | · rcases o with e | ⟨ok, st, stx, jr⟩
        · rfl
        · rcases ok with _ | _
          · rfl
          · exact fetchUserA_exchangeReqs s

theorem exchangeResponseA_isPending (o : FetchOutcome) (s : ReactAuthA.St) :
    (ReactAuthA.exchangeResponse o s).isPending = s.isPending := by
  unfold ReactAuthA.exchangeResponse
  rcases h : s.exchangeWait with _ | _ | q | _ <;>
    first
    | rfl
    | · rcases o with e | ⟨ok, st, stx, jr⟩
        · rfl
        · rcases ok with _ | _
          · rfl
          · exact fetchUserA_isPending s

theorem logoutA_fields (s : ReactAuthA.St) :
    (ReactAuthA.logout s).user = .null ∧
    (ReactAuthA.logout s).exchangeRef = s.exchangeRef ∧
    (ReactAuthA.logout s).exchangeReqs = s.exchangeReqs ∧
    (ReactAuthA.logout s).isPending = s.isPending ∧
    (ReactAuthA.logout s).logoutReqs = s.logoutReqs + 1 := by
  exact ⟨rfl, rfl, rfl, rfl, rfl⟩

theorem logoutResponseA_fields (o : FetchOutcome) (s : ReactAuthA.St) :
    (ReactAuthA.logoutResponse o s).user = s.user ∧
    (ReactAuthA.logoutResponse o s).exchangeRef = s.exchangeRef ∧
    (ReactAuthA.logoutResponse o s).exchangeReqs = s.exchangeReqs ∧
    (ReactAuthA.logoutResponse o s).isPending = s.isPending := by
  unfold ReactAuthA.logoutResponse
  rcases h : s.logoutInFlight with _ | n <;> exact ⟨rfl, rfl, rfl, rfl⟩

theorem exchangeA_dedup (s : ReactAuthA.St) (p : Nat)
    (h : s.exchangeRef = some p) :
    ReactAuthA.exchangeCodeForSessionToken s = (s, .ok p) := by
  unfold ReactAuthA.exchangeCodeForSessionToken
  rw [h]

theorem exchangeA_isPending (s : ReactAuthA.St) :
    (ReactAuthA.exchangeCodeForSessionToken s).1.isPending = s.isPending := by
  unfold ReactAuthA.exchangeCodeForSessionToken
  rcases h : s.exchangeRef with _ | p
  · rcases hc : s.code with _ | c
    · rfl
    · by_cases he : c = "" <;> simp [he]
  · rfl

theorem mountA_isPending (s : ReactAuthA.St) :
    (ReactAuthA.mount s).isPending = s.isPending := by
  unfold ReactAuthA.mount
  exact fetchUserA_isPending s

theorem stepA_exchangeRef_mono (s : ReactAuthA.St) (p : Nat) (e : ReactAuthA.Ev)
    (h : s.exchangeRef = some p) : (ReactAuthA.step s e).exchangeRef = some p := by
  rcases e with _ | _ | _ | _ | o | o | o
  · show (ReactAuthA.fetchUser s).1.exchangeRef = some p
    rw [fetchUserA_exchangeRef s]; exact h
  · show (ReactAuthA.fetchUser s).1.exchangeRef = some p
    rw [fetchUserA_exchangeRef s]; exact h
  · show (ReactAuthA.logout s).exchangeRef = some p
    rw [(logoutA_fields s).2.1]; exact h
  · show (ReactAuthA.exchangeCodeForSessionToken s).1.exchangeRef = some p
    rw [exchangeA_dedup s p h]; exact h
  · show (ReactAuthA.userResponse o s).exchangeRef = some p
    rw [userResponseA_exchangeRef o s]; exact h
  · show (ReactAuthA.exchangeResponse o s).exchangeRef = some p
    rw [exchangeResponseA_exchangeRef o s]; exact h
  · show (ReactAuthA.logoutResponse o s).exchangeRef = some p
    rw [(logoutResponseA_fields o s).2.1]; exact h

/-- Reachability invariant tying the exchange request counter to the
exchange slot: no request before the slot is filled, exactly one after. -/
def ExchInvA (s : ReactAuthA.St) : Prop :=
  (s.exchangeRef = none → s.exchangeReqs = 0) ∧ s.exchangeReqs ≤ 1

theorem exchInvA_init (code : Option String) : ExchInvA (ReactAuthA.init code) :=
  ⟨fun _ => rfl, Nat.zero_le 1⟩

theorem exchInvA_step (s : ReactAuthA.St) (e : ReactAuthA.Ev)
    (h : ExchInvA s) : ExchInvA (ReactAuthA.step s e) := by
  rcases e with _ | _ | _ | _ | o | o | o
  · show ExchInvA (ReactAuthA.mount s)
    have h1 : (ReactAuthA.mount s).exchangeRef = (ReactAuthA.fetchUser s).1.exchangeRef := rfl
    have h2 : (ReactAuthA.mount s).exchangeReqs = (ReactAuthA.fetchUser s).1.exchangeReqs := rfl
    exact ⟨fun hn => by
        rw [h2, fetchUserA_exchangeReqs]
        exact h.1 (by rw [h1, fetchUserA_exchangeRef] at hn; exact hn),
      by rw [h2, fetchUserA_exchangeReqs]; exact h.2⟩
  · show ExchInvA (ReactAuthA.fetchUser s).1
    exact ⟨fun hn => by
        rw [fetchUserA_exchangeReqs]
        exact h.1 (by rw [fetchUserA_exchangeRef] at hn; exact hn),
      by rw [fetchUserA_exchangeReqs]; exact h.2⟩
  · show ExchInvA (ReactAuthA.logout s)
    exact ⟨fun hn => h.1 hn, h.2⟩
  · show ExchInvA (ReactAuthA.exchangeCodeForSessionToken s).1
    rcases hr : s.exchangeRef with _ | p
    · unfold ReactAuthA.exchangeCodeForSessionToken
      rw [hr]
      rcases hc : s.code with _ | c
      · exact ⟨fun _ => h.1 hr, h.2⟩
      · by_cases he : c = "" <;> simp [he]
        · exact ⟨fun _ => h.1 hr, h.2⟩
        · constructor
          · intro hfalse
            exact absurd hfalse (by simp)
          · rw [h.1 hr]
    · rw [exchangeA_dedup s p hr]
      exact h
  · show ExchInvA (ReactAuthA.userResponse o s)
    exact ⟨fun hn => by
        rw [userResponseA_exchangeReqs]
        exact h.1 (by rw [userResponseA_exchangeRef] at hn; exact hn),
      by rw [userResponseA_exchangeReqs]; exact h.2⟩
  · show ExchInvA (ReactAuthA.exchangeResponse o s)
    exact ⟨fun hn => by
        rw [exchangeResponseA_exchangeReqs]
        exact h.1 (by rw [exchangeResponseA_exchangeRef] at hn; exact hn),
      by rw [exchangeResponseA_exchangeReqs]; exact h.2⟩
  · show ExchInvA (ReactAuthA.logoutResponse o s)
    exact ⟨fun hn => by
        rw [(logoutResponseA_fields o s).2.2.1]
        exact h.1 (by rw [(logoutResponseA_fields o s).2.1] at hn; exact hn),
      by rw [(logoutResponseA_fields o s).2.2.1]; exact h.2⟩

theorem exchInvA_foldl (es : List ReactAuthA.Ev) :
    ∀ s : ReactAuthA.St, ExchInvA s → ExchInvA (es.foldl ReactAuthA.step s) := by
  induction es with
  | nil => exact fun s h => h
  | cons e es ih => exact fun s h => ih (ReactAuthA.step s e) (exchInvA_step s e h)

theorem exchangeReqsA_le_one (code : Option String) (es : List ReactAuthA.Ev) :
    (ReactAuthA.run code es).exchangeReqs ≤ 1 :=
  (exchInvA_foldl es (ReactAuthA.init code) (exchInvA_init code)).2

/-! ### Client Session Coordinator lemmas — variant B (`loadUser`) -/

theorem settleLoadB_exchangeRef (p : Nat) (s : ReactAuthB.St) :
    (ReactAuthB.settleLoadPromise p s).exchangeRef = s.exchangeRef := by
  unfold ReactAuthB.settleLoadPromise
  rcases hw : s.exchangeWait with _ | _ | q | _ <;>
    simp [hw] <;> by_cases hq : q = p <;> simp [hq]

theorem settleLoadB_exchangeReqs (p : Nat) (s : ReactAuthB.St) :
    (ReactAuthB.settleLoadPromise p s).exchangeReqs = s.exchangeReqs := by
  unfold ReactAuthB.settleLoadPromise
  rcases hw : s.exchangeWait with _ | _ | q | _ <;>
    simp [hw] <;> by_cases hq : q = p <;> simp [hq]

theorem settleLoadB_userRef (p : Nat) (s : ReactAuthB.St) :
    (ReactAuthB.settleLoadPromise p s).userRef = s.userRef := by
  unfold ReactAuthB.settleLoadPromise
  rcases hw : s.exchangeWait with _ | _ | q | _ <;>
    simp [hw] <;> by_cases hq : q = p <;> simp [hq]

theorem applyLoadB_exchangeRef (o : FetchOutcome) (s : ReactAuthB.St) :
    (ReactAuthB.applyLoadBody o s).exchangeRef = s.exchangeRef := by
  unfold ReactAuthB.applyLoadBody
  rcases o with e | ⟨ok, st, stx, jr⟩
  · rfl
  · rcases ok with _ | _
    · rfl
    · rcases jr with e | j <;> rfl

theorem applyLoadB_exchangeReqs (o : FetchOutcome) (s : ReactAuthB.St) :
    (ReactAuthB.applyLoadBody o s).exchangeReqs = s.exchangeReqs := by
  unfold ReactAuthB.applyLoadBody
  rcases o with e | ⟨ok, st, stx, jr⟩
  · rfl
  · rcases ok with _ | _
    · rfl
    · rcases jr with e | j <;> rfl

theorem applyLoadB_userRef (o : FetchOutcome) (s : ReactAuthB.St) :
    (ReactAuthB.applyLoadBody o s).userRef = s.userRef := by
  unfold ReactAuthB.applyLoadBody
  rcases o with e | ⟨ok, st, stx, jr⟩
  · rfl
  · rcases ok with _ | _
    · rfl
    · rcases jr with e | j <;> rfl

theorem loadUserB_exchangeRef (s : ReactAuthB.St) :
    (ReactAuthB.loadUser s).1.exchangeRef = s.exchangeRef := by
  unfold ReactAuthB.loadUser
  rcases h : s.userRef with _ | p <;> rfl

theorem loadUserB_exchangeReqs (s : ReactAuthB.St) :
    (ReactAuthB.loadUser s).1.exchangeReqs = s.exchangeReqs := by
  unfold ReactAuthB.loadUser
  rcases h : s.userRef with _ | p <;> rfl

theorem userResponseB_exchangeRef (o : FetchOutcome) (s : ReactAuthB.St) :
    (ReactAuthB.userResponse o s).exchangeRef = s.exchangeRef := by
  unfold ReactAuthB.userResponse
  rcases h : s.userRef with _ | p
  · rfl
  · by_cases hl : s.loadSettled <;> simp [hl]
    rw [settleLoadB_exchangeRef, applyLoadB_exchangeRef]

theorem userResponseB_exchangeReqs (o : FetchOutcome) (s : ReactAuthB.St) :
    (ReactAuthB.userResponse o s).exchangeReqs = s.exchangeReqs := by
  unfold ReactAuthB.userResponse
  rcases h : s.userRef with _ | p
  · rfl
  · by_cases hl : s.loadSettled <;> simp [hl]
    rw [settleLoadB_exchangeReqs, applyLoadB_exchangeReqs]

theorem logoutB_fields (s : ReactAuthB.St) :
    (ReactAuthB.logout s).user = .null ∧
    (ReactAuthB.logout s).exchangeRef = s.exchangeRef ∧
    (ReactAuthB.logout s).exchangeReqs = s.exchangeReqs ∧
    (ReactAuthB.logout s).logoutReqs = s.logoutReqs + 1 := by
  exact ⟨rfl, rfl, rfl, rfl⟩

theorem logoutResponseB_fields (o : FetchOutcome) (s : ReactAuthB.St) :
    (ReactAuthB.logoutResponse o s).user = s.user ∧
    (ReactAuthB.logoutResponse o s).exchangeRef = s.exchangeRef ∧
    (ReactAuthB.logoutResponse o s).exchangeReqs = s.exchangeReqs := by
  unfold ReactAuthB.logoutResponse
  rcases h : s.logoutInFlight with _ | n <;> exact ⟨rfl, rfl, rfl⟩

theorem exchangeB_dedup (s : ReactAuthB.St) (p : Nat)
    (h : s.exchangeRef = some p) :
    ReactAuthB.exchangeCodeForSessionToken s = (s, .ok p) := by
  unfold ReactAuthB.exchangeCodeForSessionToken
  rw [h]

theorem exchangeResponseB_exchangeRef (o : FetchOutcome) (s : ReactAuthB.St) :
    (ReactAuthB.exchangeResponse o s).exchangeRef = s.exchangeRef := by
  unfold ReactAuthB.exchangeResponse
  rcases h : s.exchangeWait with _ | _ | q | _ <;>
    first
    | rfl
    | · rcases o with e | ⟨ok, st, stx, jr⟩
        · rfl
        · rcases ok with _ | _
          · rfl
          · by_cases hl : (ReactAuthB.loadUser s).1.loadSettled <;> simp [hl] <;>
              exact loadUserB_exchangeRef s

theorem exchangeResponseB_exchangeReqs (o : FetchOutcome) (s : ReactAuthB.St) :
    (ReactAuthB.exchangeResponse o s).exchangeReqs = s.exchangeReqs := by
  unfold ReactAuthB.exchangeResponse
  rcases h : s.exchangeWait with _ | _ | q | _ <;>
    first
    | rfl
    | · rcases o with e | ⟨ok, st, stx, jr⟩
        · rfl
        · rcases ok with _ | _
          · rfl
          · by_cases hl : (ReactAuthB.loadUser s).1.loadSettled <;> simp [hl] <;>
              exact loadUserB_exchangeReqs s

theorem stepB_exchangeRef_mono (s : ReactAuthB.St) (p : Nat) (e : ReactAuthB.Ev)
    (h : s.exchangeRef = some p) : (ReactAuthB.step s e).exchangeRef = some p := by
  rcases e with _ | _ | _ | _ | o | o | o
  · exact h
  · show (ReactAuthB.loadUser s).1.exchangeRef = some p
    rw [loadUserB_exchangeRef s]; exact h
  · show (ReactAuthB.logout s).exchangeRef = some p
    rw [(logoutB_fields s).2.1]; exact h
  · show (ReactAuthB.exchangeCodeForSessionToken s).1.exchangeRef = some p
    rw [exchangeB_dedup s p h]; exact h
  · show (ReactAuthB.userResponse o s).exchangeRef = some p
    rw [userResponseB_exchangeRef o s]; exact h
  · show (ReactAuthB.exchangeResponse o s).exchangeRef = some p
    rw [exchangeResponseB_exchangeRef o s]; exact h
  · show (ReactAuthB.logoutResponse o s).exchangeRef = some p
    rw [(logoutResponseB_fields o s).2.1]; exact h

/-- Reachability invariant tying the exchange request counter to the
exchange slot in variant B. -/
def ExchInvB (s : ReactAuthB.St) : Prop :=
  (s.exchangeRef = none → s.exchangeReqs = 0) ∧ s.exchangeReqs ≤ 1

theorem exchInvB_init (code : Option String) : ExchInvB (ReactAuthB.init code) :=
  ⟨fun _ => rfl, Nat.zero_le 1⟩

theorem exchInvB_step (s : ReactAuthB.St) (e : ReactAuthB.Ev)
    (h : ExchInvB s) : ExchInvB (ReactAuthB.step s e) := by
  rcases e with _ | _ | _ | _ | o | o | o
  · exact h
  · show ExchInvB (ReactAuthB.loadUser s).1
    exact ⟨fun hn => by
        rw [loadUserB_exchangeReqs]
        exact h.1 (by rw [loadUserB_exchangeRef] at hn; exact hn),
      by rw [loadUserB_exchangeReqs]; exact h.2⟩
  · show ExchInvB (ReactAuthB.logout s)
    exact ⟨fun hn => h.1 hn, h.2⟩
  · show ExchInvB (ReactAuthB.exchangeCodeForSessionToken s).1
    rcases hr : s.exchangeRef with _ | p
    · unfold ReactAuthB.exchangeCodeForSessionToken
      rw [hr]
      rcases hc : s.code with _ | c
      · exact ⟨fun _ => h.1 hr, h.2⟩
      · by_cases he : c = "" <;> simp [he]
        · exact ⟨fun _ => h.1 hr, h.2⟩
        · constructor
          · intro hfalse
            exact absurd hfalse (by simp)
          · rw [h.1 hr]
    · rw [exchangeB_dedup s p hr]
      exact h
  · show ExchInvB (ReactAuthB.userResponse o s)
    exact ⟨fun hn => by
        rw [userResponseB_exchangeReqs]
        exact h.1 (by rw [userResponseB_exchangeRef] at hn; exact hn),
      by rw [userResponseB_exchangeReqs]; exact h.2⟩
  · show ExchInvB (ReactAuthB.exchangeResponse o s)
    exact ⟨fun hn => by
        rw [exchangeResponseB_exchangeReqs]
        exact h.1 (by rw [exchangeResponseB_exchangeRef] at hn; exact hn),
      by rw [exchangeResponseB_exchangeReqs]; exact h.2⟩
  · show ExchInvB (ReactAuthB.logoutResponse o s)
    exact ⟨fun hn => by
        rw [(logoutResponseB_fields o s).2.2]
        exact h.1 (by rw [(logoutResponseB_fields o s).2.1] at hn; exact hn),
      by rw [(logoutResponseB_fields o s).2.2]; exact h.2⟩

theorem exchInvB_foldl (es : List ReactAuthB.Ev) :
    ∀ s : ReactAuthB.St, ExchInvB s → ExchInvB (es.foldl ReactAuthB.step s) := by
  induction es with
  | nil => exact fun s h => h
  | cons e es ih => exact fun s h => ih (ReactAuthB.step s e) (exchInvB_step s e h)

theorem exchangeReqsB_le_one (code : Option String) (es : List ReactAuthB.Ev) :
    (ReactAuthB.run code es).exchangeReqs ≤ 1 :=
  (exchInvB_foldl es (ReactAuthB.init code) (exchInvB_init code)).2

/-! ### Mount / pending-flag lemmas — variant A -/

theorem settleUserA_pending (p : Nat) (s : ReactAuthA.St)
    (h : s.pendingMountOn = some p) :
    (ReactAuthA.settleUserPromise p s).isPending = false ∧
    (ReactAuthA.settleUserPromise p s).pendingMountOn = none := by
  unfold ReactAuthA.settleUserPromise
  simp only [h]
  rcases hw : s.exchangeWait with _ | _ | q | _ <;>
    simp [hw] <;> by_cases hq : q = p <;> simp [hq]

theorem settleUserA_isPending_stable (p : Nat) (s : ReactAuthA.St)
    (h : ¬ s.pendingMountOn = some p) :
    (ReactAuthA.settleUserPromise p s).isPending = s.isPending := by
  unfold ReactAuthA.settleUserPromise
  simp only [h]
  rcases hw : s.exchangeWait with _ | _ | q | _ <;>
    simp [h, hw] <;> by_cases hq : q = p <;> simp [hq]

theorem settleUserA_isPending_iff (p : Nat) (s : ReactAuthA.St)
    (h : s.isPending = true) :
    ((ReactAuthA.settleUserPromise p s).isPending = false ↔
      s.pendingMountOn = some p) := by
  by_cases hp : s.pendingMountOn = some p
  · simp [(settleUserA_pending p s hp).1, hp]
  · simp [settleUserA_isPending_stable p s hp, h, hp]

theorem userResponseA_clears_pending (s : ReactAuthA.St) (p : Nat)
    (o : FetchOutcome) (h1 : s.pendingMountOn = some p)
    (h2 : s.userRef = some p) :
    (ReactAuthA.userResponse o s).isPending = false ∧
    (ReactAuthA.userResponse o s).pendingMountOn = none := by
  have hur : ReactAuthA.userResponse o s
      = ReactAuthA.settleUserPromise p (ReactAuthA.applyUserBody o s) := by
    unfold ReactAuthA.userResponse
    rw [h2]
  rw [hur]
  exact settleUserA_pending p (ReactAuthA.applyUserBody o s)
    (by rw [applyUserA_pendingMountOn]; exact h1)

theorem userResponseA_isPending_iff (s : ReactAuthA.St) (o : FetchOutcome)
    (h : s.isPending = true) :
    ((ReactAuthA.userResponse o s).isPending = false ↔
      ∃ p, s.userRef = some p ∧ s.pendingMountOn = some p) := by
  rcases hu : s.userRef with _ | p
  · have hur : ReactAuthA.userResponse o s = s := by
      unfold ReactAuthA.userResponse
      rw [hu]
    rw [hur]
    simp [h, hu]
  · have hur : ReactAuthA.userResponse o s
        = ReactAuthA.settleUserPromise p (ReactAuthA.applyUserBody o s) := by
      unfold ReactAuthA.userResponse
      rw [hu]
    have hiff := settleUserA_isPending_iff p (ReactAuthA.applyUserBody o s)
      (by rw [applyUserA_isPending]; exact h)
    rw [applyUserA_pendingMountOn] at hiff
    rw [hur, hiff]
    constructor
    · intro hp
      exact ⟨p, rfl, hp⟩
    · rintro ⟨q, hq, hq2⟩
      rw [Option.some.injEq] at hq
      rw [hq]
      exact hq2

/-! ### Claim theorems for the Client Session Coordinator -/

/-- C1: the claim asserts that the fetch-user in-flight slot dedupes
concurrent calls (which holds in both variants) and is cleared once the
operation settles so that a later call starts a fresh operation with a new
outbound request. The clearing half is false for the `loadUser` variant:
`userRef.current` is never reset there, contradicting both its own
documentation (each call "makes a GET request to /api/users/me", and a
successful exchange "will update the user state" via an `await loadUser()`
that becomes a no-op) and the behaviour of the `fetchUser` variant, whose
`finally` block does clear the slot. This theorem evaluates both variants on
the failing trace: one load call, its response, then a second call. In the
`fetchUser` variant the second call issues a second request (2 requests,
fresh promise 1); in the `loadUser` variant the slot still holds settled
promise 0 and the second call returns it unchanged — 1 request total. The
first two conjuncts witness the deduplication half during flight. -/
theorem C1_fetch_slot_clearing_diverges :
    (ReactAuthA.fetchUser (ReactAuthA.run none [.callFetchUser])
      = (ReactAuthA.run none [.callFetchUser], 0) ∧
     (ReactAuthA.run none [.callFetchUser]).userReqs = 1) ∧
    (ReactAuthB.loadUser (ReactAuthB.run none [.callLoadUser])
      = (ReactAuthB.run none [.callLoadUser], 0) ∧
     (ReactAuthB.run none [.callLoadUser]).userReqs = 1) ∧
    ((ReactAuthA.run none [.callFetchUser, .userResponse okUserOutcome]).userRef = none ∧
     (ReactAuthA.fetchUser
        (ReactAuthA.run none [.callFetchUser, .userResponse okUserOutcome])).2 = 1 ∧
     (ReactAuthA.fetchUser
        (ReactAuthA.run none [.callFetchUser, .userResponse okUserOutcome])).1.userReqs = 2) ∧
    ((ReactAuthB.run none [.callLoadUser, .userResponse okUserOutcome]).userRef = some 0 ∧
     (ReactAuthB.run none [.callLoadUser, .userResponse okUserOutcome]).loadSettled = true ∧
     ReactAuthB.loadUser (ReactAuthB.run none [.callLoadUser, .userResponse okUserOutcome])
       = (ReactAuthB.run none [.callLoadUser, .userResponse okUserOutcome], 0) ∧
     (ReactAuthB.loadUser
        (ReactAuthB.run none [.callLoadUser, .userResponse okUserOutcome])).1.userReqs = 1) :=
  ⟨⟨rfl, rfl⟩, ⟨rfl, rfl⟩, ⟨rfl, rfl, rfl⟩, ⟨rfl, rfl, rfl, rfl⟩⟩

/-- C2: in both variants the exchange in-flight slot, once filled, is
preserved by every machine step (never cleared, also after settlement); a
call that finds the slot filled returns the stored promise with the state
completely unchanged, so it shares the first call's settled outcome; and
along every event sequence from the initial state at most one outbound
exchange request is ever issued. -/
theorem C2_exchange_slot_one_shot :
    (∀ (s : ReactAuthA.St) (p : Nat) (e : ReactAuthA.Ev),
        s.exchangeRef = some p → (ReactAuthA.step s e).exchangeRef = some p) ∧
    (∀ (s : ReactAuthA.St) (p : Nat), s.exchangeRef = some p →
        ReactAuthA.exchangeCodeForSessionToken s = (s, .ok p)) ∧
    (∀ (code : Option String) (es : List ReactAuthA.Ev),
        (ReactAuthA.run code es).exchangeReqs ≤ 1) ∧
    (∀ (s : ReactAuthB.St) (p : Nat) (e : ReactAuthB.Ev),
        s.exchangeRef = some p → (ReactAuthB.step s e).exchangeRef = some p) ∧
    (∀ (s : ReactAuthB.St) (p : Nat), s.exchangeRef = some p →
        ReactAuthB.exchangeCodeForSessionToken s = (s, .ok p)) ∧
    (∀ (code : Option String) (es : List ReactAuthB.Ev),
        (ReactAuthB.run code es).exchangeReqs ≤ 1) :=
  ⟨stepA_exchangeRef_mono, exchangeA_dedup, exchangeReqsA_le_one,
   stepB_exchangeRef_mono, exchangeB_dedup, exchangeReqsB_le_one⟩

/-- Witness for C2 at concrete inputs: after one exchange call with code
`abc123`, the slot holds promise 0; it survives a further step, and a second
call returns the same promise with the state unchanged. -/
theorem C2_witness :
    (ReactAuthA.step (ReactAuthA.run (some "abc123") [.callExchange])
        .callFetchUser).exchangeRef = some 0 ∧
    ReactAuthA.exchangeCodeForSessionToken (ReactAuthA.run (some "abc123") [.callExchange])
      = (ReactAuthA.run (some "abc123") [.callExchange], .ok 0) ∧
    (ReactAuthA.run (some "abc123")
        [.callExchange, .callExchange, .exchangeResponse okUserOutcome,
         .callExchange]).exchangeReqs ≤ 1 ∧
    (ReactAuthB.step (ReactAuthB.run (some "abc123") [.callExchange])
        .callLoadUser).exchangeRef = some 0 ∧
    ReactAuthB.exchangeCodeForSessionToken (ReactAuthB.run (some "abc123") [.callExchange])
      = (ReactAuthB.run (some "abc123") [.callExchange], .ok 0) ∧
    (ReactAuthB.run (some "abc123")
        [.callExchange, .callExchange, .exchangeResponse okUserOutcome,
         .callExchange]).exchangeReqs ≤ 1 :=
  ⟨C2_exchange_slot_one_shot.1 _ 0 .callFetchUser rfl,
   C2_exchange_slot_one_shot.2.1 _ 0 rfl,
   C2_exchange_slot_one_shot.2.2.1 (some "abc123")
     [.callExchange, .callExchange, .exchangeResponse okUserOutcome, .callExchange],
   C2_exchange_slot_one_shot.2.2.2.1 _ 0 .callLoadUser rfl,
   C2_exchange_slot_one_shot.2.2.2.2.1 _ 0 rfl,
   C2_exchange_slot_one_shot.2.2.2.2.2 (some "abc123")
     [.callExchange, .callExchange, .exchangeResponse okUserOutcome, .callExchange]⟩

/-- C5: the claim (and the `fetchUser` variant's own interface comment,
"Otherwise, `user` will be `null`") says a completed fetch that was not
successful leaves `null` in the user slot. The `fetchUser` implementation
instead throws on a non-ok response without ever calling `setUser(null)`:
after a successful fetch stored `sampleUser`, a second fetch completing with
HTTP 401 leaves the stale record in place (conjuncts 2 and 3; conjunct 4
shows that record is not `null`). The `loadUser` variant does store `null`
on the same failing response (last conjunct), matching the claim. -/
theorem C5_fetch_failure_keeps_stale_user :
    (ReactAuthA.run none [.callFetchUser, .userResponse okUserOutcome]).user
      = sampleUser ∧
    (ReactAuthA.run none [.callFetchUser, .userResponse okUserOutcome,
        .callFetchUser, .userResponse unauthorizedOutcome]).user = sampleUser ∧
    (ReactAuthA.run none [.callFetchUser, .userResponse okUserOutcome,
        .callFetchUser, .userResponse unauthorizedOutcome]).userRef = none ∧
    sampleUser ≠ Json.null ∧
    (ReactAuthB.run none [.callLoadUser, .userResponse unauthorizedOutcome]).user
      = .null := by
  refine ⟨rfl, rfl, rfl, ?_, rfl⟩
  intro h
  exact Json.noConfusion h

/-- C6: in both variants, calling `exchangeCodeForSessionToken` with an
empty slot on a page whose URL has no `code` query parameter throws
synchronously — the call returns an error instead of a promise — and the
only state change is the query-string read: no request counter moves and no
operation is created. -/
theorem C6_exchange_missing_code_fails_sync :
    (∀ s : ReactAuthA.St, s.exchangeRef = none → s.code = none →
        ReactAuthA.exchangeCodeForSessionToken s
          = ({ s with searchReads := s.searchReads + 1 },
             .error "Cannot exchange code for session token: no code provided in the URL search params.")) ∧
    (∀ s : ReactAuthB.St, s.exchangeRef = none → s.code = none →
        ReactAuthB.exchangeCodeForSessionToken s
          = ({ s with searchReads := s.searchReads + 1 },
             .error "Cannot exchange code for session token: no code provided in the URL search params.")) := by
  constructor
  · intro s h1 h2
    unfold ReactAuthA.exchangeCodeForSessionToken
    rw [h1]
    simp only [h2]
  · intro s h1 h2
    unfold ReactAuthB.exchangeCodeForSessionToken
    rw [h1]
    simp only [h2]

/-- Witness for C6 at the initial state of a page with no `code` parameter:
the call errors and no exchange request is issued. -/
theorem C6_witness :
    (ReactAuthA.exchangeCodeForSessionToken (ReactAuthA.init none)).2
      = .error "Cannot exchange code for session token: no code provided in the URL search params." ∧
    (ReactAuthA.exchangeCodeForSessionToken (ReactAuthA.init none)).1.exchangeReqs = 0 ∧
    (ReactAuthB.exchangeCodeForSessionToken (ReactAuthB.init none)).2
      = .error "Cannot exchange code for session token: no code provided in the URL search params." ∧
    (ReactAuthB.exchangeCodeForSessionToken (ReactAuthB.init none)).1.exchangeReqs = 0 := by
  have hA := C6_exchange_missing_code_fails_sync.1 (ReactAuthA.init none) rfl rfl
  have hB := C6_exchange_missing_code_fails_sync.2 (ReactAuthB.init none) rfl rfl
  exact ⟨by rw [hA], by rw [hA]; rfl, by rw [hB], by rw [hB]; rfl⟩

/-- C7: in both variants, the synchronous prefix of `logout()` both clears
the user to `null` and issues the logout request, with `setUser(null)`
textually before `fetch` in the source; the later settlement of the logout
call never touches the user state whatever the network outcome (so a
failure cannot restore the previous user and `null` persists); and the
logout promise resolves for every outcome — the `catch` swallows transport
failures, so nothing propagates to the caller. -/
theorem C7_logout_locally_effective :
    (∀ s : ReactAuthA.St, (ReactAuthA.logout s).user = .null ∧
        (ReactAuthA.logout s).logoutReqs = s.logoutReqs + 1) ∧
    (∀ (o : FetchOutcome) (s : ReactAuthA.St),
        (ReactAuthA.logoutResponse o s).user = s.user) ∧
    (∀ o : FetchOutcome, ReactAuthA.logoutResult o = .ok ()) ∧
    (∀ s : ReactAuthB.St, (ReactAuthB.logout s).user = .null ∧
        (ReactAuthB.logout s).logoutReqs = s.logoutReqs + 1) ∧
    (∀ (o : FetchOutcome) (s : ReactAuthB.St),
        (ReactAuthB.logoutResponse o s).user = s.user) ∧
    (∀ o : FetchOutcome, ReactAuthB.logoutResult o = .ok ()) := by
  refine ⟨fun s => ⟨rfl, rfl⟩, fun o s => (logoutResponseA_fields o s).1, ?_,
    fun s => ⟨rfl, rfl⟩, fun o s => (logoutResponseB_fields o s).1, ?_⟩
  · rintro (e | ⟨ok, st, stx, jr⟩) <;> rfl
  · rintro (e | ⟨ok, st, stx, jr⟩) <;> rfl

/-- C10: in both variants the guard `if (exchangeRef.current) return
exchangeRef.current;` precedes the `URLSearchParams` read, so a call made
after an exchange has been started returns the stored promise with the
state completely unchanged — in particular `searchReads` does not move (the
page's query parameters are not read) and the call returns normally instead
of throwing, even when the state's `code` is `none`. -/
theorem C10_exchange_replay_skips_url_read :
    (∀ (s : ReactAuthA.St) (p : Nat), s.exchangeRef = some p →
        ReactAuthA.exchangeCodeForSessionToken s = (s, .ok p)) ∧
    (∀ (s : ReactAuthB.St) (p : Nat), s.exchangeRef = some p →
        ReactAuthB.exchangeCodeForSessionToken s = (s, .ok p)) :=
  ⟨exchangeA_dedup, exchangeB_dedup⟩

/-- Witness for C10 at concrete states whose URL carries no `code` at all
but whose slot is filled: the call still returns the stored promise and
changes nothing. -/
theorem C10_witness :
    ReactAuthA.exchangeCodeForSessionToken { ReactAuthA.init none with exchangeRef := some 7 }
      = ({ ReactAuthA.init none with exchangeRef := some 7 }, .ok 7) ∧
    ReactAuthB.exchangeCodeForSessionToken { ReactAuthB.init none with exchangeRef := some 7 }
      = ({ ReactAuthB.init none with exchangeRef := some 7 }, .ok 7) :=
  ⟨C10_exchange_replay_skips_url_read.1 _ 7 rfl,
   C10_exchange_replay_skips_url_read.2 _ 7 rfl⟩

/-- C9 counterexample: the claim says that on mount the Coordinator
initiates exactly one fetch-user operation. The `loadUser` variant's
`AuthProvider` body contains no `useEffect` at all — its documentation says
the application must call `loadUser` explicitly — so mounting it from the
initial state initiates zero fetch operations and leaves the state
untouched, refuting the claim for that variant. -/
theorem C9_counterexample_mountB_no_fetch :
    (ReactAuthB.step (ReactAuthB.init none) .mount).userReqs = 0 ∧
    (ReactAuthB.step (ReactAuthB.init none) .mount).userRef = none ∧
    ReactAuthB.step (ReactAuthB.init none) .mount = ReactAuthB.init none :=
  ⟨rfl, rfl, rfl⟩

/-- C9 as amended: in the `fetchUser` variant, mounting from the initial
state initiates exactly one fetch-user operation (one request, promise 0)
and registers the pending-flag callbacks on it while `isPending` stays true
(conjunct 1); the settlement of the registered promise sets `isPending`
false for every outcome, success or failure (conjunct 2); `isPending` falls
exactly at a settlement of the promise the mount effect registered on
(conjunct 3); and no other event — the exported calls, an exchange response
or a logout response — ever changes `isPending` (conjuncts 4 and 5). -/
theorem C9_mountA_single_fetch_pending :
    (∀ code : Option String,
        (ReactAuthA.mount (ReactAuthA.init code)).userReqs = 1 ∧
        (ReactAuthA.mount (ReactAuthA.init code)).userRef = some 0 ∧
        (ReactAuthA.mount (ReactAuthA.init code)).pendingMountOn = some 0 ∧
        (ReactAuthA.mount (ReactAuthA.init code)).isPending = true) ∧
    (∀ (s : ReactAuthA.St) (p : Nat) (o : FetchOutcome),
        s.pendingMountOn = some p → s.userRef = some p →
        (ReactAuthA.userResponse o s).isPending = false ∧
        (ReactAuthA.userResponse o s).pendingMountOn = none) ∧
    (∀ (s : ReactAuthA.St) (o : FetchOutcome), s.isPending = true →
        ((ReactAuthA.userResponse o s).isPending = false ↔
          ∃ p, s.userRef = some p ∧ s.pendingMountOn = some p)) ∧
    (∀ s : ReactAuthA.St,
        (ReactAuthA.step s .mount).isPending = s.isPending ∧
        (ReactAuthA.step s .callFetchUser).isPending = s.isPending ∧
        (ReactAuthA.step s .callLogout).isPending = s.isPending ∧
        (ReactAuthA.step s .callExchange).isPending = s.isPending) ∧
    (∀ (s : ReactAuthA.St) (o : FetchOutcome),
        (ReactAuthA.step s (.exchangeResponse o)).isPending = s.isPending ∧
        (ReactAuthA.step s (.logoutResponse o)).isPending = s.isPending) := by
  refine ⟨fun code => ⟨rfl, rfl, rfl, rfl⟩,
    userResponseA_clears_pending, userResponseA_isPending_iff,
    fun s => ⟨mountA_isPending s, fetchUserA_isPending s,
      (logoutA_fields s).2.2.2.1, exchangeA_isPending s⟩,
    fun s o => ⟨exchangeResponseA_isPending o s,
      (logoutResponseA_fields o s).2.2.2⟩⟩

/-- Witness for C9 at concrete inputs: mounting and then delivering a
failing response to the mount-registered promise clears `isPending`, and
the same holds for a successful response. -/
theorem C9_witness :
    (ReactAuthA.userResponse unauthorizedOutcome
        (ReactAuthA.mount (ReactAuthA.init none))).isPending = false ∧
    (ReactAuthA.userResponse okUserOutcome
        (ReactAuthA.mount (ReactAuthA.init none))).isPending = false :=
  ⟨(C9_mountA_single_fetch_pending.2.1 (ReactAuthA.mount (ReactAuthA.init none))
      0 unauthorizedOutcome rfl rfl).1,
   (C9_mountA_single_fetch_pending.2.1 (ReactAuthA.mount (ReactAuthA.init none))
      0 okUserOutcome rfl rfl).1⟩
